import Mathlib

/-!
Verification of the CV-analysis pipeline of `cv_analyzer.py` (class
`CVAnalyzer`) against its natural-language specification.

The embedding works over the extracted text of a document (a `String`);
file reading (`extract_text`) is deterministic given the document, so every
property of the analysis stages is stated over the extracted text.

Python's global pseudo-random stream (`random.uniform`, `random.randint`,
`random.choice`) is modelled by the structure `RNG`: `unit i` is the i-th
draw of the unit-interval generator backing `random.uniform(a, b) =
a + (b - a) * random()`, bundled with the guarantee `0 ≤ unit i ≤ 1` that
the `random` library documents, and `nat i` is the raw entropy behind the
i-th integer draw (`randint(1, 4)` becomes `1 + nat i % 4`, `choice` over a
five-element list becomes indexing by `nat i % 5`).  The claims quantify
over every stream, so the exact interleaving of draw indices is immaterial;
each stage consumes successive indices the way the source consumes
successive calls.
-/

/-- Model of Python's `random` module: an arbitrary stream of draws.  -/
structure RNG where
  unit : ℕ → ℚ
  nat : ℕ → ℕ
  unit_nonneg : ∀ i, 0 ≤ unit i
  unit_le_one : ∀ i, unit i ≤ 1

/-- Python whitespace class `\s` (ASCII part), as used by `str.strip` and
the regex in `_extract_experience`. -/
def pyIsSpace (c : Char) : Bool :=
  c = ' ' || c = '\t' || c = '\n' || c = '\r' || c = '\x0b' || c = '\x0c'

/-- Regex class `[A-Z]`. -/
def isUpperAZ (c : Char) : Bool := 'A' ≤ c && c ≤ 'Z'

/-- Regex class `[A-Za-z]`. -/
def isAlphaAZ (c : Char) : Bool := isUpperAZ c || ('a' ≤ c && c ≤ 'z')

/-- Regex class `[A-Za-z\s]`, the body of a captured company name. -/
def companyChar (c : Char) : Bool := isAlphaAZ c || pyIsSpace c

/-- Python `str.lower()` (ASCII; every catalog keyword is ASCII), applied to
the character list of the text. -/
def pyLower (s : String) : List Char := s.data.map Char.toLower

/-- Occurrence of `needle` at the start of `hay` (anchored match of a
literal). -/
def hasHere : List Char → List Char → Bool
  | [], _ => true
  | _ :: _, [] => false
  | n :: ns, h :: hs => n = h && hasHere ns hs

/-- Python's substring test `needle in hay`. -/
def occursIn : List Char → List Char → Bool
  | n, [] => n.isEmpty
  | n, c :: hs => hasHere n (c :: hs) || occursIn n hs

/-- Python's `str.count`: non-overlapping occurrences, scanning left to
right and skipping past each match.  `fuel` bounds the recursion; the
wrapper `countOcc` supplies `hay.length`, which suffices because every step
consumes at least one character (all keywords are nonempty). -/
def countOccAux (n : List Char) : ℕ → List Char → ℕ
  | 0, _ => 0
  | _ + 1, [] => 0
  | fuel + 1, c :: hs =>
    if hasHere n (c :: hs) then 1 + countOccAux n fuel ((c :: hs).drop n.length)
    else countOccAux n fuel hs

/-- Python's `str.count` of a nonempty literal. -/
def countOcc (n hay : List Char) : ℕ := countOccAux n hay.length hay

/-- The skills database of `CVAnalyzer.__init__`, in dict insertion order.
All 48 keywords are pairwise distinct, so the dict built by
`_extract_skills` is faithfully modelled by an association list. -/
def skills_database : List (String × List String) :=
  [("python", ["python", "pandas", "numpy", "scikit-learn", "tensorflow", "pytorch", "django", "flask"]),
   ("javascript", ["javascript", "react", "vue", "angular", "node.js", "express", "jquery"]),
   ("data_science", ["machine learning", "data analysis", "statistical analysis", "big data", "data mining"]),
   ("databases", ["sql", "mysql", "postgresql", "mongodb", "oracle", "database management"]),
   ("project_management", ["agile", "scrum", "kanban", "project planning", "team leadership"]),
   ("communication", ["presentation", "teamwork", "verbal communication", "written communication"]),
   ("languages", ["english", "german", "french", "spanish", "chinese", "russian", "arabic"]),
   ("design", ["ui design", "ux design", "graphic design", "adobe", "photoshop", "illustrator"])]

/-- Every catalog keyword, in the iteration order of the nested loops of
`_extract_skills`. -/
def allKeywords : List String := (skills_database.map Prod.snd).flatten

/-- `CVAnalyzer._extract_skills`: lower-case the text; for each catalog
keyword present as a substring, record it with the rating
`random.uniform(50, 100) = 50 + 50 * unit`, one draw per match in
iteration order (draw indices starting at `k0`). -/
def extract_skills (text : String) (rng : RNG) (k0 : ℕ) : List (String × ℚ) :=
  ((allKeywords.filter (fun kw => occursIn kw.data (pyLower text))).enum.map
    (fun p => (p.2, 50 + 50 * rng.unit (k0 + p.1))))

/-- A fixed concrete draw stream used by witnesses: every draw is 0. -/
def rng0 : RNG :=
  { unit := fun _ => 0
    nat := fun _ => 0
    unit_nonneg := fun _ => le_refl 0
    unit_le_one := fun _ => by norm_num }

/-!
The company-name scanner of `_extract_experience`:
`re.findall(r"(?:at|for|with)\s+([A-Z][A-Za-z\s]+(?:Inc|LLC|Ltd|GmbH|AG|SE|Company|Corp)?)", text)`.

The corporate-suffix group is semantically dead: `[A-Za-z\s]+` is greedy
and every suffix consists of characters in `[A-Za-z]`, so the `+` always
consumes any suffix text and the optional group matches empty.  The capture
is therefore an `[A-Z]` character followed by the maximal nonempty run of
`[A-Za-z\s]` characters.  `re.findall` tries a match at every position in
turn (the three alternatives start with distinct letters, and neither
`\s+` nor the greedy run can usefully backtrack, so the anchored match is
deterministic), and continues after the end of each match.
-/

/-- The literal alternation `(?:at|for|with)`: consume it at the head of
the input. -/
def kwRest : List Char → Option (List Char)
  | 'a' :: 't' :: rest => some rest
  | 'f' :: 'o' :: 'r' :: rest => some rest
  | 'w' :: 'i' :: 't' :: 'h' :: rest => some rest
  | _ => none

/-- Anchored match of the company pattern at the head of `cs`: on success,
the captured company name and the input remaining after the whole match. -/
def matchAt (cs : List Char) : Option (List Char × List Char) :=
  match kwRest cs with
  | none => none
  | some r1 =>
    let sp := r1.takeWhile pyIsSpace
    if sp.isEmpty then none
    else
      match r1.drop sp.length with
      | [] => none
      | c :: r2 =>
        if isUpperAZ c then
          let w := r2.takeWhile companyChar
          if w.isEmpty then none else some (c :: w, r2.drop w.length)
        else none

/-- The `re.findall` scan: try the anchored match at each position; on
success record the capture and continue after the match.  `fuel` bounds the
recursion; `findCompanies` supplies the text length, which suffices because
every step consumes at least one character. -/
def scanAux : ℕ → List Char → List (List Char)
  | 0, _ => []
  | _ + 1, [] => []
  | fuel + 1, c :: cs =>
    match matchAt (c :: cs) with
    | some (cap, rest) => cap :: scanAux fuel rest
    | none => scanAux fuel cs

/-- `re.findall(company_pattern, text)` on the original (non-lowered)
text. -/
def findCompanies (text : List Char) : List (List Char) := scanAux text.length text

/-- Python `str.strip()`: drop leading and trailing whitespace. -/
def pyStrip (cs : List Char) : List Char :=
  ((cs.dropWhile pyIsSpace).reverse.dropWhile pyIsSpace).reverse

/-- One synthesized work-history record, as built by `_extract_experience`
(the dict with keys title/company/description/start_date/end_date/duration;
`start_year` and `end_year` are the integers the date strings are formatted
from). -/
structure ExperienceEntry where
  title : String
  company : String
  description : String
  start_year : ℤ
  end_year : ℤ
  start_date : String
  end_date : String
  duration : ℤ
  deriving DecidableEq

/-- The fixed title pool of `random.choice` in `_extract_experience`. -/
def titles : List String :=
  ["Software Developer", "Senior Engineer", "Project Manager", "Data Analyst", "Team Lead"]

/-- Index a five-element list by a draw modulo 5 (`random.choice`). -/
def pick5 (xs : List String) (h : xs.length = 5) (n : ℕ) : String :=
  xs.get ⟨n % 5, by omega⟩

/-- The loop body of `_extract_experience` at 0-based index `i`:
`end_year = 2024 - i` (the source hardcodes the literal 2024),
`start_year = end_year - random.randint(1, 4)`, a title chosen by
`random.choice`, and the templated description.  Each iteration consumes
one `randint` draw and one `choice` draw. -/
def mkEntry (rng : RNG) (k0 i : ℕ) (company : List Char) : ExperienceEntry :=
  let end_year : ℤ := 2024 - (i : ℤ)
  let start_year : ℤ := end_year - ((1 + rng.nat (k0 + 2 * i) % 4 : ℕ) : ℤ)
  let c := (pyStrip company).asString
  { title := pick5 titles rfl (rng.nat (k0 + 2 * i + 1))
    company := c
    description := "Worked on various projects at " ++ c
    start_year := start_year
    end_year := end_year
    start_date := toString start_year ++ "-01-01"
    end_date := toString end_year ++ "-12-31"
    duration := end_year - start_year }

/-- The `for i, company in enumerate(companies[:5])` loop, with `i`
threaded explicitly. -/
def mkEntries (rng : RNG) (k0 : ℕ) : ℕ → List (List Char) → List ExperienceEntry
  | _, [] => []
  | i, c :: rest => mkEntry rng k0 i c :: mkEntries rng k0 (i + 1) rest

/-- `CVAnalyzer._extract_experience`: find candidate company names in the
raw text, keep the first five, and synthesize one entry per company. -/
def extract_experience (text : String) (rng : RNG) (k0 : ℕ) : List ExperienceEntry :=
  mkEntries rng k0 0 ((findCompanies text.data).take 5)

/-- The profession keyword table of `_determine_profession`, in dict
insertion order. -/
def profession_keywords : List (String × List String) :=
  [("Software Engineer", ["software", "developer", "programming", "code", "engineer"]),
   ("Data Scientist", ["data", "analytics", "machine learning", "statistics", "analysis"]),
   ("Project Manager", ["project", "management", "agile", "scrum", "planning"]),
   ("UI/UX Designer", ["design", "user interface", "user experience", "ui", "ux"]),
   ("Product Manager", ["product", "roadmap", "features", "requirements", "stakeholders"]),
   ("Marketing Specialist", ["marketing", "campaign", "social media", "advertising", "brand"]),
   ("Financial Analyst", ["finance", "financial", "accounting", "analysis", "budget"]),
   ("HR Manager", ["hr", "human resources", "recruiting", "talent", "onboarding"])]

/-- A profession's score: the sum of `text.count(keyword)` over its
keywords. -/
def professionScore (kws : List String) (t : List Char) : ℕ :=
  (kws.map (fun kw => countOcc kw.data t)).sum

/-- Python's `max(scores, key=scores.get)` over the professions in
insertion order: keep the first-seen entry, replacing it only on a strictly
greater score. -/
def argmaxFirst (x : String × ℕ) (rest : List (String × ℕ)) : String :=
  (rest.foldl (fun best y => if y.2 > best.2 then y else best) x).1

/-- `CVAnalyzer._determine_profession`: lower-case the text, score every
profession by raw keyword occurrence counts, return the arg-max (first
profession wins ties).  The `else "Not determined"` branch of the source is
reached only if the score dict is empty, which the fixed eight-entry table
never is. -/
def determine_profession (text : String) : String :=
  let t := pyLower text
  match profession_keywords.map (fun p => (p.1, professionScore p.2 t)) with
  | [] => "Not determined"
  | x :: rest => argmaxFirst x rest

/-- The threshold chain of `_determine_experience_level`, as a function of
the total years. -/
def levelOfYears (total_years : ℤ) : String :=
  if total_years < 2 then "Junior"
  else if total_years < 5 then "Mid-Level"
  else if total_years < 8 then "Senior"
  else if total_years < 12 then "Lead"
  else "Manager"

/-- `CVAnalyzer._determine_experience_level`: sum the `duration` fields and
apply the fixed thresholds. -/
def determine_experience_level (experience : List ExperienceEntry) : String :=
  levelOfYears ((experience.map (fun e => e.duration)).sum)

/-- `CVAnalyzer._generate_recommendations`. -/
def generate_recommendations (skills : List (String × ℚ))
    (experience : List ExperienceEntry) : List String :=
  (if skills.length < 5 then
    ["Consider adding more skills to your CV to showcase your expertise."] else []) ++
  (if experience.length < 3 then
    ["Add more details about your work experience, including achievements and responsibilities."]
   else []) ++
  ["Quantify your achievements with metrics and results where possible.",
   "Tailor your CV for each specific job application."]

/-- The aggregate analysis record returned by `analyze_cv_file`.
`missing_skills` is present only after the job-matching update. -/
structure AnalysisResult where
  skills : List (String × ℚ)
  experience : List ExperienceEntry
  profession : String
  experience_level : String
  relevance_score : ℚ
  recommendations : List String
  missing_skills : Option (List (String × ℚ)) := none

/-- `CVAnalyzer._analyze_cv_text`: run every stage on the extracted text.
The generic relevance score is `random.uniform(60, 95) = 60 + 35 * unit`,
drawn after the skill ratings (the skill stage consumes one unit draw per
matched keyword). -/
def analyze_cv_text (cv_text : String) (rng : RNG) : AnalysisResult :=
  let skills := extract_skills cv_text rng 0
  let experience := extract_experience cv_text rng 0
  { skills := skills
    experience := experience
    profession := determine_profession cv_text
    experience_level := determine_experience_level experience
    relevance_score := 60 + 35 * rng.unit skills.length
    recommendations := generate_recommendations skills experience }

/-- The `required_skills` dict of `_match_with_job_description`: the skill
extraction re-run on the job description, with importance
`random.uniform(60, 100) = 60 + 40 * unit`. -/
def extract_required_skills (job_description : String) (rng : RNG) (k0 : ℕ) :
    List (String × ℚ) :=
  ((allKeywords.filter (fun kw => occursIn kw.data (pyLower job_description))).enum.map
    (fun p => (p.2, 60 + 40 * rng.unit (k0 + p.1))))

/-- Membership test of a required skill in the candidate's skill map
(`skill in cv_skills`). -/
def inCvSkills (cv_skills : List (String × ℚ)) (s : String) : Bool :=
  (cv_skills.lookup s).isSome

/-- The missing-skill test of `_match_with_job_description`: absent from
the candidate's map, or present with a rating strictly below the job's
importance. -/
def isMissing (cv_skills : List (String × ℚ)) (p : String × ℚ) : Bool :=
  match cv_skills.lookup p.1 with
  | none => true
  | some r => decide (r < p.2)

/-- `CVAnalyzer._match_with_job_description`: recompute required skills
from the job text, flag missing ones, score the coverage ratio (fallback 70
when no required skill was extracted), and extend the recommendations.  The
caller's `results.update(...)` replaces `relevance_score` and
`recommendations` and adds `missing_skills`. -/
def match_with_job_description (cv_results : AnalysisResult) (job_description : String)
    (rng : RNG) (k0 : ℕ) : AnalysisResult :=
  let required_skills := extract_required_skills job_description rng k0
  let cv_skills := cv_results.skills
  let missing_skills := required_skills.filter (isMissing cv_skills)
  let num_matches := (required_skills.filter (fun p => inCvSkills cv_skills p.1)).length
  let match_score : ℚ :=
    if required_skills.isEmpty then 70
    else ((num_matches : ℚ) / ((max 1 required_skills.length : ℕ) : ℚ)) * 100
  let job_recommendations :=
    (if missing_skills.isEmpty then []
     else ["Highlight or develop skills in: "
            ++ String.intercalate ", " ((missing_skills.map Prod.fst).take 3)]) ++
    ["Customize your CV to better match the job requirements.",
     "Highlight relevant achievements that demonstrate required competencies."]
  { cv_results with
      relevance_score := match_score
      missing_skills := some missing_skills
      recommendations := cv_results.recommendations ++ job_recommendations }

/-- `CVAnalyzer.analyze_cv_file` after text extraction succeeded, taking
the extracted text in place of the file path.  `if job_description:` is
Python truthiness: `None` and the empty string both skip the matching
stage. -/
def analyze_cv_file (cv_text : String) (job_description : Option String) (rng : RNG) :
    AnalysisResult :=
  let results := analyze_cv_text cv_text rng
  match job_description with
  | none => results
  | some jd =>
    if jd = "" then results
    else match_with_job_description results jd rng (results.skills.length + 1)

/-- Error taxonomy of the spec for `export_results`; the source raises
`ValueError("Unsupported export format. Please use csv or excel.")`, which
the spec names `UnsupportedExportFormatError`. -/
inductive ExportError where
  | UnsupportedExportFormatError
  deriving DecidableEq

/-- The tabular text blob of `_export_to_csv`, structured: the overview
fields always appear; the skills, experience and recommendations sections
appear only when nonempty (`if "skills" in results and results["skills"]`
and so on).  The pandas string rendering of the tables is not modelled;
the sections carry the data the tables are built from. -/
structure CsvExport where
  profession : String
  experience_level : String
  relevance_score : ℚ
  skills_section : Option (List (String × ℚ))
  experience_section : Option (List ExperienceEntry)
  recommendations_section : Option (List String)

/-- The multi-sheet spreadsheet of `_export_to_excel`: the Overview sheet
always, then Skills / Experience / Recommendations / Missing Skills sheets
when the corresponding data is present and nonempty. -/
structure ExcelExport where
  overview : String × String × ℚ
  skills_sheet : Option (List (String × ℚ))
  experience_sheet : Option (List ExperienceEntry)
  recommendations_sheet : Option (List String)
  missing_skills_sheet : Option (List (String × ℚ))

/-- `CVAnalyzer._export_to_csv`. -/
def export_to_csv (results : AnalysisResult) : CsvExport :=
  { profession := results.profession
    experience_level := results.experience_level
    relevance_score := results.relevance_score
    skills_section := if results.skills.isEmpty then none else some results.skills
    experience_section := if results.experience.isEmpty then none else some results.experience
    recommendations_section :=
      if results.recommendations.isEmpty then none else some results.recommendations }

/-- `CVAnalyzer._export_to_excel`. -/
def export_to_excel (results : AnalysisResult) : ExcelExport :=
  { overview := (results.profession, results.experience_level, results.relevance_score)
    skills_sheet := if results.skills.isEmpty then none else some results.skills
    experience_sheet := if results.experience.isEmpty then none else some results.experience
    recommendations_sheet :=
      if results.recommendations.isEmpty then none else some results.recommendations
    missing_skills_sheet :=
      match results.missing_skills with
      | none => none
      | some ms => if ms.isEmpty then none else some ms }

/-- The two export payloads. -/
inductive ExportOutput where
  | csv (doc : CsvExport)
  | excel (book : ExcelExport)

/-- `CVAnalyzer.export_results`: dispatch on the format string; any format
other than "csv" and "excel" raises before any output is produced. -/
def export_results (results : AnalysisResult) (fmt : String) :
    Except ExportError ExportOutput :=
  if fmt = "csv" then .ok (.csv (export_to_csv results))
  else if fmt = "excel" then .ok (.excel (export_to_excel results))
  else .error .UnsupportedExportFormatError

/-- A second concrete draw stream for the idempotence counterexample: the
integer draws are all 3 (so `randint(1, 4)` yields 4). -/
def rng3 : RNG :=
  { unit := fun _ => 0
    nat := fun _ => 3
    unit_nonneg := fun _ => le_refl 0
    unit_le_one := fun _ => by norm_num }

/-- Modelled from the spec: `currentYear`, the calendar year at the moment
the analysis runs — 2026 at the time of this verification.  It is absent
from the source, which hardcodes the literal 2024 in
`_extract_experience`; this spec-side constant exists only to compare the
spec's `end_year = currentYear - i` against the source's behaviour. -/
def spec_currentYear : ℤ := 2026

/-- Position of a band in the seniority order
Junior < Mid-Level < Senior < Lead < Manager (5 for anything else). -/
def seniorityRank (band : String) : ℕ :=
  if band = "Junior" then 0
  else if band = "Mid-Level" then 1
  else if band = "Senior" then 2
  else if band = "Lead" then 3
  else if band = "Manager" then 4
  else 5

/-- A concrete candidate record used by the C6 witness. -/
def cvA : AnalysisResult :=
  { skills := [("python", 80)]
    experience := []
    profession := "Software Engineer"
    experience_level := "Junior"
    relevance_score := 60
    recommendations := [] }

section Lemmas

/-- The keys of the rating map are exactly the matched keywords: attaching
enumerated ratings and projecting back to the keys is the identity. -/
theorem enumFrom_rate_map_fst {α β : Type} (g : ℕ → β) :
    ∀ (xs : List α) (n : ℕ),
      ((List.enumFrom n xs).map (fun p => (p.2, g p.1))).map Prod.fst = xs := by
  intro xs
  induction xs with
  | nil => intro n; rfl
  | cons x xs ih => intro n; simpa using ih (n + 1)

theorem extract_skills_map_fst (text : String) (rng : RNG) (k0 : ℕ) :
    (extract_skills text rng k0).map Prod.fst
      = allKeywords.filter (fun kw => occursIn kw.data (pyLower text)) := by
  unfold extract_skills
  exact enumFrom_rate_map_fst (fun i => 50 + 50 * rng.unit (k0 + i)) _ 0

theorem extract_required_skills_map_fst (jd : String) (rng : RNG) (k0 : ℕ) :
    (extract_required_skills jd rng k0).map Prod.fst
      = allKeywords.filter (fun kw => occursIn kw.data (pyLower jd)) := by
  unfold extract_required_skills
  exact enumFrom_rate_map_fst (fun i => 60 + 40 * rng.unit (k0 + i)) _ 0

theorem mkEntries_length (rng : RNG) (k0 : ℕ) :
    ∀ (i : ℕ) (cs : List (List Char)), (mkEntries rng k0 i cs).length = cs.length := by
  intro i cs
  induction cs generalizing i with
  | nil => rfl
  | cons c cs ih => simpa [mkEntries] using ih (i + 1)

theorem mkEntries_get (rng : RNG) (k0 : ℕ) :
    ∀ (cs : List (List Char)) (i0 j : ℕ) (h : j < (mkEntries rng k0 i0 cs).length)
      (h2 : j < cs.length),
      (mkEntries rng k0 i0 cs).get ⟨j, h⟩ = mkEntry rng k0 (i0 + j) (cs.get ⟨j, h2⟩) := by
  intro cs
  induction cs with
  | nil => intro i0 j h h2; simp at h2
  | cons c cs ih =>
    intro i0 j h h2
    cases j with
    | zero => simp [mkEntries]
    | succ j =>
      have hlen : j < (mkEntries rng k0 (i0 + 1) cs).length := by
        simpa [mkEntries_length] using Nat.lt_of_succ_lt_succ h2
      have := ih (i0 + 1) j hlen (Nat.lt_of_succ_lt_succ h2)
      simpa [mkEntries, Nat.add_assoc, Nat.add_comm 1 j] using this

theorem mkEntries_map_company (rng : RNG) (k0 : ℕ) :
    ∀ (i : ℕ) (cs : List (List Char)),
      (mkEntries rng k0 i cs).map (fun e => e.company)
        = cs.map (fun c => (pyStrip c).asString) := by
  intro i cs
  induction cs generalizing i with
  | nil => rfl
  | cons c cs ih => simpa [mkEntries, mkEntry] using ih (i + 1)

/-- A literal that occurs nowhere in the text is counted zero times. -/
theorem countOccAux_eq_zero (n : List Char) :
    ∀ (fuel : ℕ) (hay : List Char), occursIn n hay = false → countOccAux n fuel hay = 0 := by
  intro fuel
  induction fuel with
  | zero => intro hay _; rfl
  | succ fuel ih =>
    intro hay hno
    cases hay with
    | nil => rfl
    | cons c hs =>
      have hsplit : hasHere n (c :: hs) = false ∧ occursIn n hs = false := by
        have := hno
        unfold occursIn at this
        exact ⟨by cases hh : hasHere n (c :: hs) <;> simp [hh] at this ⊢,
               by cases ho : occursIn n hs <;> simp [ho] at this ⊢⟩
      unfold countOccAux
      simp [hsplit.1, ih hs hsplit.2]

theorem countOcc_eq_zero (n hay : List Char) (h : occursIn n hay = false) :
    countOcc n hay = 0 :=
  countOccAux_eq_zero n hay.length hay h

/-- The first-seen arg-max fold never moves off an entry that already
dominates the rest. -/
theorem foldl_argmax_fixed :
    ∀ (xs : List (String × ℕ)) (b : String × ℕ), (∀ x ∈ xs, x.2 ≤ b.2) →
      xs.foldl (fun best y => if y.2 > best.2 then y else best) b = b := by
  intro xs
  induction xs with
  | nil => intro b _; rfl
  | cons x xs ih =>
    intro b hb
    have hx : ¬ x.2 > b.2 := not_lt.mpr (hb x (List.mem_cons_self x xs))
    simp only [List.foldl_cons, if_neg hx]
    exact ih b (fun y hy => hb y (List.mem_cons_of_mem x hy))

end Lemmas

/-- C3: the Level Estimator maps the summed duration total `T` to exactly
the banded names: Junior below 2, Mid-Level on [2,5), Senior on [5,8),
Lead on [8,12), Manager from 12 up. -/
theorem level_estimator_bands (experience : List ExperienceEntry) :
    ((experience.map (fun e => e.duration)).sum < 2 →
        determine_experience_level experience = "Junior") ∧
    (2 ≤ (experience.map (fun e => e.duration)).sum ∧
        (experience.map (fun e => e.duration)).sum < 5 →
        determine_experience_level experience = "Mid-Level") ∧
    (5 ≤ (experience.map (fun e => e.duration)).sum ∧
        (experience.map (fun e => e.duration)).sum < 8 →
        determine_experience_level experience = "Senior") ∧
    (8 ≤ (experience.map (fun e => e.duration)).sum ∧
        (experience.map (fun e => e.duration)).sum < 12 →
        determine_experience_level experience = "Lead") ∧
    (12 ≤ (experience.map (fun e => e.duration)).sum →
        determine_experience_level experience = "Manager") := by
  unfold determine_experience_level levelOfYears
  set T := (experience.map (fun e => e.duration)).sum with hT
  refine ⟨fun h => ?_, fun h => ?_, fun h => ?_, fun h => ?_, fun h => ?_⟩ <;>
    split_ifs <;> first | rfl | omega

/-- C3 witness: an empty work history totals 0 years and is rated
Junior. -/
theorem level_estimator_bands_witness : determine_experience_level [] = "Junior" :=
  (level_estimator_bands []).1 (by decide)

/-- C4: the Level Estimator is monotone non-decreasing in the duration
total under the seniority order, always lands in the five reachable bands,
and never returns Director, VP or C-Level. -/
theorem level_estimator_monotone_and_reachable :
    (∀ T1 T2 : ℤ, T1 ≤ T2 →
      seniorityRank (levelOfYears T1) ≤ seniorityRank (levelOfYears T2)) ∧
    (∀ T : ℤ, levelOfYears T ∈ ["Junior", "Mid-Level", "Senior", "Lead", "Manager"] ∧
      levelOfYears T ≠ "Director" ∧ levelOfYears T ≠ "VP" ∧ levelOfYears T ≠ "C-Level") := by
  constructor
  · intro T1 T2 h
    unfold levelOfYears
    split_ifs <;> first | decide | omega
  · intro T
    unfold levelOfYears
    split_ifs <;> refine ⟨?_, ?_, ?_, ?_⟩ <;> decide

/-- C4 witness: 3 total years rank no higher than 9 total years, and 9
years yields one of the five reachable bands, never Director. -/
theorem level_estimator_monotone_witness :
    seniorityRank (levelOfYears 3) ≤ seniorityRank (levelOfYears 9) ∧
      levelOfYears 9 ≠ "Director" :=
  ⟨level_estimator_monotone_and_reachable.1 3 9 (by decide),
   (level_estimator_monotone_and_reachable.2 9).2.1⟩

/-- C7: for every catalog (category, keyword) pair, the Skill Matcher
records the keyword exactly when it is a literal substring of the
lower-cased text, and every recorded rating lies in [50, 100]. -/
theorem skill_matcher_correct (text : String) (rng : RNG) (k0 : ℕ)
    (cat : String) (kws : List String) (kw : String)
    (hcat : (cat, kws) ∈ skills_database) (hkw : kw ∈ kws) :
    (kw ∈ (extract_skills text rng k0).map Prod.fst ↔
      occursIn kw.data (pyLower text) = true) ∧
    ∀ p ∈ extract_skills text rng k0, 50 ≤ p.2 ∧ p.2 ≤ 100 := by
  constructor
  · rw [extract_skills_map_fst, List.mem_filter]
    have hmem : kw ∈ allKeywords := by
      unfold allKeywords
      rw [List.mem_flatten]
      exact ⟨kws, List.mem_map_of_mem Prod.snd hcat, hkw⟩
    exact ⟨fun h => h.2, fun h => ⟨hmem, h⟩⟩
  · intro p hp
    unfold extract_skills at hp
    obtain ⟨q, hq, rfl⟩ := List.mem_map.mp hp
    have h1 := rng.unit_nonneg (k0 + q.1)
    have h2 := rng.unit_le_one (k0 + q.1)
    constructor <;> [skip; skip] <;> dsimp <;> linarith

/-- C7 witness: the text "python" records the catalog keyword "python". -/
theorem skill_matcher_correct_witness :
    "python" ∈ (extract_skills "python" rng0 0).map Prod.fst :=
  (skill_matcher_correct "python" rng0 0 "python"
    ["python", "pandas", "numpy", "scikit-learn", "tensorflow", "pytorch", "django", "flask"]
    "python" (by decide) (by decide)).1.mpr (by decide)

/-- C10: without a job description the relevance score is
`random.uniform(60, 95)`, hence always in [60, 95]. -/
theorem relevance_score_range (cv_text : String) (rng : RNG) :
    60 ≤ (analyze_cv_file cv_text none rng).relevance_score ∧
      (analyze_cv_file cv_text none rng).relevance_score ≤ 95 := by
  have h1 := rng.unit_nonneg (extract_skills cv_text rng 0).length
  have h2 := rng.unit_le_one (extract_skills cv_text rng 0).length
  show 60 ≤ 60 + 35 * rng.unit (extract_skills cv_text rng 0).length ∧
    60 + 35 * rng.unit (extract_skills cv_text rng 0).length ≤ 95
  constructor <;> linarith

/-- C5 counterexample: the text "data" contains no skill-catalog keyword,
so its skills map is empty, yet the profession classifier scores the
keyword "data" for Data Scientist and does not return the tie-break
default "Software Engineer". -/
theorem skills_empty_profession_cex :
    allKeywords.all (fun kw => !occursIn kw.data (pyLower "data")) = true ∧
    (analyze_cv_file "data" none rng0).skills = [] ∧
    (analyze_cv_file "data" none rng0).profession ≠ "Software Engineer" := by
  refine ⟨by decide, by decide, by decide⟩

/-- C5 amended: with no skill-catalog keyword in the lower-cased text the
skills map is empty; the profession is the tie-break default
"Software Engineer" under the additional hypothesis that no
profession-classifier keyword occurs either (the classifier scores its own
keyword table, not the skill catalog). -/
theorem skills_empty_profession_amended (cv_text : String) (rng : RNG)
    (hsk : ∀ kw ∈ allKeywords, occursIn kw.data (pyLower cv_text) = false) :
    (analyze_cv_file cv_text none rng).skills = [] ∧
    ((∀ p ∈ profession_keywords, ∀ kw ∈ p.2, occursIn kw.data (pyLower cv_text) = false) →
      (analyze_cv_file cv_text none rng).profession = "Software Engineer") := by
  have hfil : allKeywords.filter (fun kw => occursIn kw.data (pyLower cv_text)) = [] := by
    rw [List.filter_eq_nil_iff]
    intro a ha
    simp [hsk a ha]
  constructor
  · show extract_skills cv_text rng 0 = []
    unfold extract_skills
    rw [hfil]
    rfl
  · intro hprof
    show (match profession_keywords.map
        (fun p => (p.1, professionScore p.2 (pyLower cv_text))) with
      | [] => "Not determined"
      | x :: rest => argmaxFirst x rest) = "Software Engineer"
    have hscores :
        profession_keywords.map (fun p => (p.1, professionScore p.2 (pyLower cv_text)))
          = profession_keywords.map (fun p => (p.1, 0)) := by
      apply List.map_congr_left
      intro p hp
      have hz : professionScore p.2 (pyLower cv_text) = 0 := by
        unfold professionScore
        apply List.sum_eq_zero
        intro x hx
        obtain ⟨kw, hkw, rfl⟩ := List.mem_map.mp hx
        exact countOcc_eq_zero _ _ (hprof p hp kw hkw)
      simp [hz]
    rw [hscores]
    decide

/-- C5 witness: the text "zzz" (no keyword of either table occurs) yields
an empty skills map and profession "Software Engineer". -/
theorem skills_empty_profession_witness :
    (analyze_cv_file "zzz" none rng0).skills = [] ∧
    (analyze_cv_file "zzz" none rng0).profession = "Software Engineer" :=
  ⟨(skills_empty_profession_amended "zzz" rng0 (by decide)).1,
   (skills_empty_profession_amended "zzz" rng0 (by decide)).2 (by decide)⟩

/-- C1 counterexample: on the same document, two draws of the
pseudo-random stream give different experience levels — the synthesized
durations are `randint(1, 4)` draws, and their sum feeds the Level
Estimator (1 year ⇒ Junior for `rng0`, 4 years ⇒ Mid-Level for
`rng3`). -/
theorem analyze_idempotent_cex :
    (analyze_cv_file "I worked at Acme Corp" none rng0).experience_level ≠
      (analyze_cv_file "I worked at Acme Corp" none rng3).experience_level := by
  decide

/-- C1 amended: two analyses of the same extracted text agree on
`profession` and on the set of matched skill keywords for any two draws of
the stream; `experience_level` agrees whenever the two draws synthesize
the same durations (in particular always when the text has no
company-pattern match), but not in general. -/
theorem analyze_draw_independent (cv_text : String) (r1 r2 : RNG) :
    (analyze_cv_file cv_text none r1).profession
      = (analyze_cv_file cv_text none r2).profession ∧
    (analyze_cv_file cv_text none r1).skills.map Prod.fst
      = (analyze_cv_file cv_text none r2).skills.map Prod.fst ∧
    ((analyze_cv_file cv_text none r1).experience.map (fun e => e.duration)
        = (analyze_cv_file cv_text none r2).experience.map (fun e => e.duration) →
      (analyze_cv_file cv_text none r1).experience_level
        = (analyze_cv_file cv_text none r2).experience_level) := by
  refine ⟨rfl, ?_, ?_⟩
  · show (extract_skills cv_text r1 0).map Prod.fst
      = (extract_skills cv_text r2 0).map Prod.fst
    rw [extract_skills_map_fst, extract_skills_map_fst]
  · intro h
    show determine_experience_level (extract_experience cv_text r1 0)
      = determine_experience_level (extract_experience cv_text r2 0)
    have h' : (extract_experience cv_text r1 0).map (fun e => e.duration)
        = (extract_experience cv_text r2 0).map (fun e => e.duration) := h
    unfold determine_experience_level
    rw [h']

/-- C1 amended witness: profession agrees between the two concrete draws
on "at Acme Corp", and on the match-free text "zzz" the experience level
agrees as well. -/
theorem analyze_draw_independent_witness :
    (analyze_cv_file "at Acme Corp" none rng0).profession
      = (analyze_cv_file "at Acme Corp" none rng3).profession ∧
    (analyze_cv_file "zzz" none rng0).experience_level
      = (analyze_cv_file "zzz" none rng3).experience_level :=
  ⟨(analyze_draw_independent "at Acme Corp" rng0 rng3).1,
   (analyze_draw_independent "zzz" rng0 rng3).2.2 (by decide)⟩

/-- C2 counterexample: the entry synthesized for the first matched company
carries `end_year = 2024` — the source hardcodes the literal 2024 — which
is not the current calendar year (2026) minus the index. -/
theorem experience_end_year_cex :
    ((extract_experience "at Acme Corp" rng0 0).get ⟨0, by decide⟩).end_year = 2024 ∧
    ((extract_experience "at Acme Corp" rng0 0).get ⟨0, by decide⟩).end_year ≠
      spec_currentYear - 0 := by
  exact ⟨by decide, by decide⟩

/-- C2 amended: the Experience Extractor returns at most 5 entries, whose
companies are the first pattern matches in order of appearance (stripped),
and the entry at 0-based index i has `end_year = 2024 - i` (2024 is
hardcoded, not the current year), a duration drawn from {1, 2, 3, 4},
`start_year = end_year - duration`, and a title from the fixed
five-element set. -/
theorem experience_entries_shape (cv_text : String) (rng : RNG) (k0 : ℕ) :
    (extract_experience cv_text rng k0).length ≤ 5 ∧
    (extract_experience cv_text rng k0).map (fun e => e.company)
      = ((findCompanies cv_text.data).take 5).map (fun c => (pyStrip c).asString) ∧
    ∀ (i : ℕ) (h : i < (extract_experience cv_text rng k0).length),
      ((extract_experience cv_text rng k0).get ⟨i, h⟩).end_year = 2024 - (i : ℤ) ∧
      1 ≤ ((extract_experience cv_text rng k0).get ⟨i, h⟩).duration ∧
      ((extract_experience cv_text rng k0).get ⟨i, h⟩).duration ≤ 4 ∧
      ((extract_experience cv_text rng k0).get ⟨i, h⟩).start_year
        = ((extract_experience cv_text rng k0).get ⟨i, h⟩).end_year
          - ((extract_experience cv_text rng k0).get ⟨i, h⟩).duration ∧
      ((extract_experience cv_text rng k0).get ⟨i, h⟩).title ∈ titles := by
  refine ⟨?_, mkEntries_map_company rng k0 0 _, ?_⟩
  · show (mkEntries rng k0 0 ((findCompanies cv_text.data).take 5)).length ≤ 5
    rw [mkEntries_length]
    rw [List.length_take]
    exact min_le_left 5 _
  · intro i h
    have h2 : i < ((findCompanies cv_text.data).take 5).length := by
      have := h
      rw [show (extract_experience cv_text rng k0).length
            = ((findCompanies cv_text.data).take 5).length
          from mkEntries_length rng k0 0 _] at this
      exact this
    have hget : (extract_experience cv_text rng k0).get ⟨i, h⟩
        = mkEntry rng k0 (0 + i) (((findCompanies cv_text.data).take 5).get ⟨i, h2⟩) :=
      mkEntries_get rng k0 _ 0 i h h2
    rw [hget]
    have hmod : rng.nat (k0 + 2 * (0 + i)) % 4 < 4 := Nat.mod_lt _ (by norm_num)
    refine ⟨by simp [mkEntry], ?_, ?_, by simp [mkEntry], ?_⟩
    · show (1:ℤ) ≤ 2024 - ((0 + i : ℕ) : ℤ)
        - (2024 - ((0 + i : ℕ) : ℤ) - ((1 + rng.nat (k0 + 2 * (0 + i)) % 4 : ℕ) : ℤ))
      push_cast
      omega
    · show 2024 - ((0 + i : ℕ) : ℤ)
        - (2024 - ((0 + i : ℕ) : ℤ) - ((1 + rng.nat (k0 + 2 * (0 + i)) % 4 : ℕ) : ℤ)) ≤ 4
      push_cast
      omega
    · show pick5 titles rfl (rng.nat (k0 + 2 * (0 + i) + 1)) ∈ titles
      unfold pick5
      exact List.get_mem titles _ _

/-- C2 amended witness: on "at Acme Corp" the single synthesized entry has
`end_year = 2024 - 0` and a duration in the drawn range. -/
theorem experience_entries_shape_witness :
    ((extract_experience "at Acme Corp" rng0 0).get ⟨0, by decide⟩).end_year
        = 2024 - ((0 : ℕ) : ℤ) ∧
      1 ≤ ((extract_experience "at Acme Corp" rng0 0).get ⟨0, by decide⟩).duration :=
  ⟨((experience_entries_shape "at Acme Corp" rng0 0).2.2 0 (by decide)).1,
   ((experience_entries_shape "at Acme Corp" rng0 0).2.2 0 (by decide)).2.1⟩

/-- C6: the Job Matcher's `missing_skills` holds exactly the required
skills that are absent from the candidate's skill map or under-rated, and
the relevance score is the coverage ratio over `max(1, |required|)` scaled
to 100 when at least one required skill was extracted, and exactly 70
(with empty `missing_skills`) when none was. -/
theorem job_matcher_correct (cv : AnalysisResult) (jd : String) (rng : RNG) (k0 : ℕ) :
    (∃ ms, (match_with_job_description cv jd rng k0).missing_skills = some ms ∧
      ∀ s imp, (s, imp) ∈ ms ↔
        ((s, imp) ∈ extract_required_skills jd rng k0 ∧
          (cv.skills.lookup s = none ∨ ∃ c, cv.skills.lookup s = some c ∧ c < imp))) ∧
    (extract_required_skills jd rng k0 ≠ [] →
      (match_with_job_description cv jd rng k0).relevance_score =
        ((((extract_required_skills jd rng k0).filter
            (fun p => inCvSkills cv.skills p.1)).length : ℚ)
          / ((max 1 (extract_required_skills jd rng k0).length : ℕ) : ℚ)) * 100) ∧
    (extract_required_skills jd rng k0 = [] →
      (match_with_job_description cv jd rng k0).relevance_score = 70 ∧
      (match_with_job_description cv jd rng k0).missing_skills = some []) := by
  refine ⟨⟨(extract_required_skills jd rng k0).filter (isMissing cv.skills), rfl, ?_⟩, ?_, ?_⟩
  · intro s imp
    rw [List.mem_filter]
    constructor
    · rintro ⟨hmem, hmiss⟩
      refine ⟨hmem, ?_⟩
      unfold isMissing at hmiss
      cases hl : cv.skills.lookup s with
      | none => exact Or.inl rfl
      | some c =>
        rw [hl] at hmiss
        exact Or.inr ⟨c, rfl, by simpa using hmiss⟩
    · rintro ⟨hmem, hcond⟩
      refine ⟨hmem, ?_⟩
      unfold isMissing
      rcases hcond with hnone | ⟨c, hc, hlt⟩
      · rw [hnone]
      · rw [hc]
        simpa using hlt
  · intro hne
    show (if (extract_required_skills jd rng k0).isEmpty then (70:ℚ)
      else ((((extract_required_skills jd rng k0).filter
          (fun p => inCvSkills cv.skills p.1)).length : ℚ)
        / ((max 1 (extract_required_skills jd rng k0).length : ℕ) : ℚ)) * 100)
      = ((((extract_required_skills jd rng k0).filter
          (fun p => inCvSkills cv.skills p.1)).length : ℚ)
        / ((max 1 (extract_required_skills jd rng k0).length : ℕ) : ℚ)) * 100
    rw [if_neg (by simpa using hne)]
  · intro he
    constructor
    · show (if (extract_required_skills jd rng k0).isEmpty then (70:ℚ)
        else ((((extract_required_skills jd rng k0).filter
            (fun p => inCvSkills cv.skills p.1)).length : ℚ)
          / ((max 1 (extract_required_skills jd rng k0).length : ℕ) : ℚ)) * 100) = 70
      rw [if_pos (by simp [he])]
    · show some ((extract_required_skills jd rng k0).filter (isMissing cv.skills)) = some []
      rw [he]
      rfl

/-- C6 witness: against the job description "python" one required skill is
extracted, and the score is the stated coverage ratio. -/
theorem job_matcher_correct_witness :
    extract_required_skills "python" rng0 0 ≠ [] ∧
    (match_with_job_description cvA "python" rng0 0).relevance_score =
      ((((extract_required_skills "python" rng0 0).filter
          (fun p => inCvSkills cvA.skills p.1)).length : ℚ)
        / ((max 1 (extract_required_skills "python" rng0 0).length : ℕ) : ℚ)) * 100 :=
  ⟨by decide, (job_matcher_correct cvA "python" rng0 0).2.1 (by decide)⟩

/-- C8: every export format other than "csv" and "excel" is rejected with
`UnsupportedExportFormatError` before any output is produced. -/
theorem export_rejects_unknown (results : AnalysisResult) (fmt : String)
    (h1 : fmt ≠ "csv") (h2 : fmt ≠ "excel") :
    export_results results fmt = .error .UnsupportedExportFormatError := by
  unfold export_results
  rw [if_neg h1, if_neg h2]

/-- C8 witness: exporting to "xml" fails with the unsupported-format
error. -/
theorem export_rejects_unknown_witness :
    export_results (analyze_cv_file "zzz" none rng0) "xml"
      = .error .UnsupportedExportFormatError :=
  export_rejects_unknown _ "xml" (by decide) (by decide)

/-- Every catalog keyword belongs to the keyword list of some category. -/
theorem mem_allKeywords (kw : String) (h : kw ∈ allKeywords) :
    ∃ p ∈ skills_database, kw ∈ p.2 := by
  unfold allKeywords at h
  rw [List.mem_flatten] at h
  obtain ⟨l, hl, hkw⟩ := h
  obtain ⟨p, hp, rfl⟩ := List.mem_map.mp hl
  exact ⟨p, hp, hkw⟩

/-- The analysis never alters the skill map after extraction. -/
theorem analyze_skills_eq (cv_text : String) (jd : Option String) (rng : RNG) :
    (analyze_cv_file cv_text jd rng).skills = extract_skills cv_text rng 0 := by
  cases jd with
  | none => rfl
  | some d =>
    show (if d = "" then analyze_cv_text cv_text rng
        else match_with_job_description (analyze_cv_text cv_text rng) d rng
          ((analyze_cv_text cv_text rng).skills.length + 1)).skills
      = extract_skills cv_text rng 0
    by_cases hd : d = ""
    · rw [if_pos hd]
      rfl
    · rw [if_neg hd]
      rfl

/-- The `missing_skills` produced by the job matcher, explicitly. -/
theorem match_missing_skills_eq (cv : AnalysisResult) (jd : String) (rng : RNG) (k0 : ℕ) :
    (match_with_job_description cv jd rng k0).missing_skills
      = some ((extract_required_skills jd rng k0).filter (isMissing cv.skills)) := rfl

/-- C9: every keyword in the result's `skills` map, and every keyword in
its `missing_skills` map when present, belongs to some category of the
skill catalog. -/
theorem result_keywords_in_catalog (cv_text : String) (jd : Option String) (rng : RNG) :
    (∀ kw ∈ (analyze_cv_file cv_text jd rng).skills.map Prod.fst,
      ∃ p ∈ skills_database, kw ∈ p.2) ∧
    (∀ ms, (analyze_cv_file cv_text jd rng).missing_skills = some ms →
      ∀ kw ∈ ms.map Prod.fst, ∃ p ∈ skills_database, kw ∈ p.2) := by
  constructor
  · intro kw hkw
    rw [analyze_skills_eq, extract_skills_map_fst] at hkw
    exact mem_allKeywords kw (List.mem_filter.mp hkw).1
  · intro ms hms kw hkw
    cases jd with
    | none =>
      have hnone : (none : Option (List (String × ℚ))) = some ms := hms
      exact absurd hnone (by simp)
    | some d =>
      have hms' : (if d = "" then analyze_cv_text cv_text rng
          else match_with_job_description (analyze_cv_text cv_text rng) d rng
            ((analyze_cv_text cv_text rng).skills.length + 1)).missing_skills
          = some ms := hms
      by_cases hd : d = ""
      · rw [if_pos hd] at hms'
        have hnone : (none : Option (List (String × ℚ))) = some ms := hms'
        exact absurd hnone (by simp)
      · rw [if_neg hd, match_missing_skills_eq] at hms'
        obtain rfl := (Option.some.inj hms').symm
        obtain ⟨p, hp, rfl⟩ := List.mem_map.mp hkw
        have hpreq := (List.mem_filter.mp hp).1
        have hfst : p.1 ∈ (extract_required_skills d rng
            ((analyze_cv_text cv_text rng).skills.length + 1)).map Prod.fst :=
          List.mem_map_of_mem Prod.fst hpreq
        rw [extract_required_skills_map_fst] at hfst
        exact mem_allKeywords p.1 (List.mem_filter.mp hfst).1

/-- C9 witness: the analysis of the text "python" against the job
description "sql" records only catalog keywords, e.g. "python" itself. -/
theorem result_keywords_in_catalog_witness :
    ∃ p ∈ skills_database, "python" ∈ p.2 :=
  (result_keywords_in_catalog "python" none rng0).1 "python" (by decide)
